import Mathlib

/-!
# Verification of the crypto-trader strategy core (src/main.py)

Shallow embedding of the strategy-execution core of `src/main.py`:

* `TradingSignals.calculate` (SMA crossover signal engine),
* `AlpacaAPI.get_historical_data` (bounded retry data fetch),
* `OrderExecution.place_order` (fee estimate and order submission),
* `AlpacaTradingBot.run` (scheduler loop: clock check, fan-out, error recovery).

Conventions of the embedding:

* Prices are rationals (`ℚ`); pandas `NaN` cells arising from a rolling
  window that is not yet fully populated are modelled as `Option ℚ` with
  `none` for `NaN`.  A pandas comparison `a > b` involving `NaN` evaluates
  to `False`, which `optGt` reproduces.
* A Python function that can raise is modelled with `Option`: `none`
  stands for an escaping exception.
* The pandas DataFrame handed to `calculate` is modelled by `DF`: it keeps
  the `close` column together with the two columns the function may attach
  (`SMA_short`, `SMA_long`), each `none` while the column is absent.
-/

/-- Row-wise strict comparison of two pandas cells: any comparison that
touches `NaN` (here `none`) is `False`. -/
def optGt : Option ℚ → Option ℚ → Bool
  | some a, some b => decide (b < a)
  | _, _ => false

/-- Model of the DataFrame passed to `TradingSignals.calculate`: the
`close` column plus the two SMA columns the call may attach (`none` when
the column is absent from the frame). -/
structure DF where
  close : List ℚ
  sma_short : Option (List (Option ℚ))
  sma_long : Option (List (Option ℚ))
deriving DecidableEq

/-- `series.rolling(window=w).mean()` for a fully populated numeric
column: the cell at index `i` is the mean of the `w` samples ending at
`i` when that window is fully populated, and `NaN` (`none`) otherwise. -/
def rollingMean (w : Nat) (xs : List ℚ) : List (Option ℚ) :=
  (List.range xs.length).map fun i =>
    if w ≤ i + 1 ∧ 1 ≤ w then some ((((xs.take (i + 1)).drop (i + 1 - w)).sum) / w)
    else none

/-- Configuration of the signal engine (`TradingSignals.__init__`):
window sizes, default 20/50. -/
structure TradingSignals where
  short_window : Nat
  long_window : Nat
deriving DecidableEq

namespace TradingSignals

/-- One call of `TradingSignals.calculate` on a present DataFrame,
returning the post-call state of the frame together with the returned
pair; the `Option` result is `none` when the call raises
(pandas rejects `rolling(window=0)`; `iloc[-2]` raises `IndexError`
on a length-1 frame).  The column assignments at lines 93-94 of
`src/main.py` happen before the `iloc` reads, so the mutated frame is
returned even on the `IndexError` path. -/
def calcStep (ts : TradingSignals) (df : DF) : DF × Option (Bool × Bool) :=
  if df.close.length < ts.long_window then (df, some (false, false))
  else if ts.short_window = 0 ∨ ts.long_window = 0 then (df, none)
  else
    let s := rollingMean ts.short_window df.close
    let l := rollingMean ts.long_window df.close
    let df' : DF := { df with sma_short := some s, sma_long := some l }
    if df.close.length < 2 then (df', none)
    else
      let n := df.close.length
      let curr := optGt (s.getD (n - 1) none) (l.getD (n - 1) none)
      let prev := optGt (s.getD (n - 2) none) (l.getD (n - 2) none)
      (df', some ((!prev) && curr, prev && (!curr)))

/-- `TradingSignals.calculate(self, data)`: `data is None` yields the
no-signal pair; otherwise the result of the crossover computation
(`none` = the call raises). -/
def calculate (ts : TradingSignals) : Option DF → Option (Bool × Bool)
  | none => some (false, false)
  | some df => (ts.calcStep df).2

end TradingSignals

/-- Spec-side trailing mean value: mean of the last `w` samples. -/
def lastWindowMean (w : Nat) (xs : List ℚ) : ℚ :=
  (xs.drop (xs.length - w)).sum / w

/-- Spec-side trailing mean: the mean of the last `w` samples of `xs`,
defined exactly when `1 ≤ w ≤ length` (the "no value until the window
fills" convention).  `rollingMean` evaluated at the last index is proved
to coincide with this. -/
def trailMeanLast (w : Nat) (xs : List ℚ) : Option ℚ :=
  if 1 ≤ w ∧ w ≤ xs.length then some (lastWindowMean w xs) else none

/-! ## MarketDataFetcher: `AlpacaAPI.get_historical_data` -/

/-- One row of the bars DataFrame returned by `get_crypto_bars`:
timestamp index paired with the row payload. -/
abbrev Bar := Nat × ℚ

/-- Outcome of one iteration of the `try` body of
`get_historical_data`: the API call returns bars (possibly empty),
raises `tradeapi.rest.APIError`, or raises any other exception. -/
inductive AttemptOutcome where
  | ok (bars : List Bar)
  | apiErr
  | otherErr
deriving DecidableEq

/-- Insert a row into an index-sorted list of rows. -/
def insertRow (x : Bar) : List Bar → List Bar
  | [] => [x]
  | y :: ys => if x.1 ≤ y.1 then x :: y :: ys else y :: insertRow x ys

/-- `DataFrame.sort_index()` on the bars: stable sort of the rows by
their timestamp index. -/
def sortIndex : List Bar → List Bar
  | [] => []
  | x :: xs => insertRow x (sortIndex xs)

/-- `bars.tail(limit).sort_index()`: keep the last `limit` rows, then
sort them ascending by index. -/
def tailSortIndex (limit : Nat) (bars : List Bar) : List Bar :=
  sortIndex (bars.drop (bars.length - limit))

/-- The `while attempt < retries` loop of `get_historical_data`.
`fuel = retries - attempt` counts the remaining loop iterations; `made`
counts the attempts executed so far and `sleeps` the jittered backoff
sleeps taken so far.  The result triple is (returned value, attempts
executed, backoff sleeps taken); a `none` value is the Python `None`
(DataUnavailable) — every path returns, none raises. -/
def fetchAux (o : Nat → AttemptOutcome) (limit : Nat) :
    Nat → Nat → Nat → Option (List Bar) × Nat × Nat
  | 0, made, sleeps => (none, made, sleeps)
  | fuel + 1, made, sleeps =>
    match o made with
    | .ok bars =>
      if bars = [] then (none, made + 1, sleeps)
      else (some (tailSortIndex limit bars), made + 1, sleeps)
    | .otherErr => (none, made + 1, sleeps)
    | .apiErr =>
      if fuel = 0 then (none, made + 1, sleeps)
      else fetchAux o limit fuel (made + 1) (sleeps + 1)

/-- `AlpacaAPI.get_historical_data(symbol, …, limit, retries, delay)`:
the attempt outcomes are abstracted as the oracle `o` (the `i`-th entry
is what the `i`-th executed `try` body does). -/
def get_historical_data (o : Nat → AttemptOutcome) (limit retries : Nat) :
    Option (List Bar) × Nat × Nat :=
  fetchAux o limit retries 0 0

/-! ## OrderExecutor: `OrderExecution.place_order` -/

/-- The argument record of the `submit_order` call. -/
structure OrderReq where
  symbol : String
  qty : ℚ
  side : String
  order_type : String
  time_in_force : String
deriving DecidableEq

/-- `estimated_fee = qty * current_price * (self.fee_rate / 100)`
(line 125 of `src/main.py`). -/
def estimated_fee (qty current_price fee_rate : ℚ) : ℚ :=
  qty * current_price * (fee_rate / 100)

/-- `OrderExecution.place_order`: reads the latest trade price (`none`
models a broker error on that read, which the except-blocks turn into a
logged `None` return), computes the fee estimate, and submits a market /
good-till-cancelled order.  Returns the computed fee together with the
submitted request, or `none` when no order was placed. -/
def place_order (fee_rate : ℚ) (latest_trade : Option ℚ)
    (symbol : String) (qty : ℚ) (side : String) : Option (ℚ × OrderReq) :=
  match latest_trade with
  | none => none
  | some price =>
    some (estimated_fee qty price fee_rate, ⟨symbol, qty, side, "market", "gtc"⟩)

/-! ## SchedulerLoop: `AlpacaTradingBot.run` -/

/-- Observable actions of one pass of the `while True` body of
`AlpacaTradingBot.run`. -/
inductive Event where
  | sleep (secs : Nat)
  | processSymbols
  | logClosed
  | logError
  | logStop
deriving DecidableEq

inductive Control where
  | next
  | stop
deriving DecidableEq

/-- What one pass of the loop body encounters: either the body runs to
completion with the clock snapshot it read (`toOpen` = the exact number
of seconds in `next_open - clock.timestamp`), or an exception surfaces
to the loop level (`kb` = it is the `KeyboardInterrupt` cancellation). -/
inductive IterBehavior where
  | completes (is_open : Bool) (toOpen : Nat)
  | raises (kb : Bool)
deriving DecidableEq

/-- Python `timedelta.seconds` on a non-negative timedelta of `t` whole
seconds: the seconds within the day component, i.e. `t % 86400` — not
the total. -/
def timedeltaSeconds (t : Nat) : Nat := t % 86400

/-- One pass of the `while True` body of `AlpacaTradingBot.run`
(lines 153-173): the ordered observable events of the pass and whether
the loop continues.  Note the closed-clock branch has no `continue`:
after the sleep, control falls through to the per-symbol fan-out and the
inter-cycle sleep in the same pass. -/
def loopIter (check_interval : Nat) : IterBehavior → List Event × Control
  | .completes is_open toOpen =>
    ((if is_open then []
      else [Event.logClosed,
            Event.sleep (min check_interval (timedeltaSeconds toOpen))]) ++
      [Event.processSymbols, Event.sleep check_interval], .next)
  | .raises kb =>
    if kb then ([Event.logStop], .stop)
    else ([Event.logError, Event.sleep 300], .next)

/-- The loop driver: consumes the per-pass behaviours in order,
concatenating each pass's events, and stops when a pass breaks out. -/
def runLoop (check_interval : Nat) : List IterBehavior → List Event
  | [] => []
  | b :: bs =>
    match loopIter check_interval b with
    | (es, .next) => es ++ runLoop check_interval bs
    | (es, .stop) => es

/-! ## Supporting lemmas -/

/-- A pandas comparison against `NaN` on the right is `False`. -/
lemma optGt_none_right (x : Option ℚ) : optGt x none = false := by
  cases x <;> rfl

/-- The rolling-mean cell at a valid index, written out. -/
lemma rollingMean_getD (w : Nat) (xs : List ℚ) (i : Nat) (hi : i < xs.length) :
    (rollingMean w xs).getD i none =
      if w ≤ i + 1 ∧ 1 ≤ w then some ((((xs.take (i + 1)).drop (i + 1 - w)).sum) / w)
      else none := by
  unfold rollingMean
  rw [List.getD_eq_getElem?_getD, List.getElem?_map, List.getElem?_range hi]
  rfl

/-- The rolling-mean cell at the last index is the trailing mean of the
whole series. -/
lemma rollingMean_last (w : Nat) (xs : List ℚ) (h1 : 1 ≤ xs.length) :
    (rollingMean w xs).getD (xs.length - 1) none = trailMeanLast w xs := by
  rw [rollingMean_getD w xs (xs.length - 1) (by omega)]
  have e : xs.length - 1 + 1 = xs.length := by omega
  unfold trailMeanLast lastWindowMean
  rw [e, List.take_length]
  by_cases hw : 1 ≤ w ∧ w ≤ xs.length
  · rw [if_pos ⟨hw.2, hw.1⟩, if_pos hw]
  · rw [if_neg (by tauto), if_neg hw]

/-- The rolling-mean cell at the second-to-last index is the trailing
mean of the series with its last sample removed. -/
lemma rollingMean_penult (w : Nat) (xs : List ℚ) (h2 : 2 ≤ xs.length) :
    (rollingMean w xs).getD (xs.length - 2) none = trailMeanLast w xs.dropLast := by
  rw [rollingMean_getD w xs (xs.length - 2) (by omega)]
  have e : xs.length - 2 + 1 = xs.length - 1 := by omega
  unfold trailMeanLast lastWindowMean
  rw [e, ← List.dropLast_eq_take, List.length_dropLast]
  by_cases hw : 1 ≤ w ∧ w ≤ xs.length - 1
  · rw [if_pos ⟨hw.2, hw.1⟩, if_pos hw]
  · rw [if_neg (by tauto), if_neg hw]

/-- Characterization of one `calculate` call on a sufficiently long
series with valid windows: the frame gains the two SMA columns and the
returned pair is the crossover of the last two trailing means. -/
lemma calcStep_of_valid (ts : TradingSignals) (df : DF)
    (hs : 1 ≤ ts.short_window) (hl : 2 ≤ ts.long_window)
    (hlen : ts.long_window ≤ df.close.length) :
    ts.calcStep df =
      ({ df with sma_short := some (rollingMean ts.short_window df.close),
                 sma_long := some (rollingMean ts.long_window df.close) },
       some
        ((!(optGt (trailMeanLast ts.short_window df.close.dropLast)
              (trailMeanLast ts.long_window df.close.dropLast))) &&
           optGt (trailMeanLast ts.short_window df.close)
             (trailMeanLast ts.long_window df.close),
         optGt (trailMeanLast ts.short_window df.close.dropLast)
             (trailMeanLast ts.long_window df.close.dropLast) &&
           (!(optGt (trailMeanLast ts.short_window df.close)
             (trailMeanLast ts.long_window df.close))))) := by
  have h2 : 2 ≤ df.close.length := le_trans hl hlen
  simp only [TradingSignals.calcStep]
  rw [if_neg (by omega), if_neg (by omega), if_neg (by omega)]
  rw [rollingMean_last _ _ (by omega), rollingMean_last _ _ (by omega),
    rollingMean_penult _ _ h2, rollingMean_penult _ _ h2]

/-- The fetch loop never executes more tries than it has fuel. -/
lemma fetchAux_made_le (o : Nat → AttemptOutcome) (limit : Nat) :
    ∀ (fuel made sleeps : Nat),
      (fetchAux o limit fuel made sleeps).2.1 ≤ made + fuel := by
  intro fuel
  induction fuel with
  | zero => intro made sleeps; simp [fetchAux]
  | succ f ih =>
    intro made sleeps
    simp only [fetchAux]
    cases o made with
    | ok bars =>
      by_cases hb : bars = [] <;> simp [hb]
    | otherErr => simp
    | apiErr =>
      by_cases hf : f = 0
      · simp [hf]
      · have := ih (made + 1) (sleeps + 1)
        show ((if f = 0 then ((none : Option (List Bar)), made + 1, sleeps)
          else fetchAux o limit f (made + 1) (sleeps + 1))).2.1 ≤ made + (f + 1)
        rw [if_neg hf]
        omega

/-- Skipping a block of API-error attempts: `k` consecutive transient
failures advance the loop by `k` attempts and `k` backoff sleeps. -/
lemma fetchAux_skip (o : Nat → AttemptOutcome) (limit : Nat) :
    ∀ (k fuel made sleeps : Nat), k < fuel →
      (∀ j, j < k → o (made + j) = .apiErr) →
      fetchAux o limit fuel made sleeps =
        fetchAux o limit (fuel - k) (made + k) (sleeps + k) := by
  intro k
  induction k with
  | zero => intro fuel made sleeps _ _; simp
  | succ n ih =>
    intro fuel made sleeps hk hpre
    obtain ⟨f, rfl⟩ : ∃ f, fuel = f + 1 := ⟨fuel - 1, by omega⟩
    have h0 : o made = .apiErr := by simpa using hpre 0 (by omega)
    simp only [fetchAux, h0]
    rw [if_neg (by omega : ¬ f = 0)]
    rw [show f + 1 - (n + 1) = f - n by omega,
      show made + (n + 1) = made + 1 + n by omega,
      show sleeps + (n + 1) = sleeps + 1 + n by omega]
    exact ih f (made + 1) (sleeps + 1) (by omega) fun j hj => by
      rw [show made + 1 + j = made + (j + 1) by omega]
      exact hpre (j + 1) (by omega)

/-! ## Claim theorems -/

/-- C1: the claim that a closed-clock cycle only sleeps
`min(checkInterval, next_open − now)` and then returns to the clock
check without running any per-symbol task is refuted by the code.  The
closed branch of `AlpacaTradingBot.run` has no `continue`: evaluated at
a closed clock 3600 s before open with `check_interval = 900`, the pass
sleeps 900 s and then still emits the per-symbol fan-out (and the
inter-cycle sleep) in the same pass.  Moreover the slept duration is
`min(check_interval, (next_open − now).seconds)` with `.seconds`
wrapping at one day: 86410 s before open it sleeps 10 s, not 900. -/
theorem run_closed_clock_fallthrough :
    loopIter 900 (IterBehavior.completes false 3600) =
      ([Event.logClosed, Event.sleep 900, Event.processSymbols, Event.sleep 900],
        Control.next) ∧
    Event.processSymbols ∈ (loopIter 900 (IterBehavior.completes false 3600)).1 ∧
    loopIter 900 (IterBehavior.completes false 86410) =
      ([Event.logClosed, Event.sleep 10, Event.processSymbols, Event.sleep 900],
        Control.next) := by decide

/-- C2 (counterexample): `calculate` is not free of side effects on its
input: on a length-2 series with windows 1/2 the input frame differs
after the call (the two SMA columns have been attached). -/
theorem calculate_mutates_input_frame :
    (TradingSignals.calcStep ⟨1, 2⟩ ⟨[(1 : ℚ), 2], none, none⟩).1 ≠
      ⟨[(1 : ℚ), 2], none, none⟩ := by
  simp [TradingSignals.calcStep]

/-- C2 (amended): `calculate` never changes the `close` column; a series
shorter than `long_window` is returned untouched; a sufficiently long
series (with valid windows) gains exactly the `SMA_short` and `SMA_long`
columns, set to the rolling means. -/
theorem calculate_frame_effect (ts : TradingSignals) (df : DF) :
    (ts.calcStep df).1.close = df.close ∧
    (df.close.length < ts.long_window → (ts.calcStep df).1 = df) ∧
    (1 ≤ ts.short_window → 2 ≤ ts.long_window → ts.long_window ≤ df.close.length →
      (ts.calcStep df).1 =
        { df with sma_short := some (rollingMean ts.short_window df.close),
                  sma_long := some (rollingMean ts.long_window df.close) }) := by
  refine ⟨?_, ?_, ?_⟩
  · simp only [TradingSignals.calcStep]
    split_ifs <;> rfl
  · intro h
    simp only [TradingSignals.calcStep]
    rw [if_pos h]
  · intro hs hl hlen
    rw [calcStep_of_valid ts df hs hl hlen]

/-- Witness for C2 (amended), at windows 1/2 on the series `[1, 2]`. -/
theorem calculate_frame_effect_witness :
    1 ≤ 1 ∧ 2 ≤ 2 ∧ 2 ≤ ([(1 : ℚ), 2]).length ∧
    (TradingSignals.calcStep ⟨1, 2⟩ ⟨[(1 : ℚ), 2], none, none⟩).1 =
      { close := [(1 : ℚ), 2], sma_short := some (rollingMean 1 [(1 : ℚ), 2]),
        sma_long := some (rollingMean 2 [(1 : ℚ), 2]) } :=
  ⟨by decide, by decide, by decide,
    (calculate_frame_effect ⟨1, 2⟩ ⟨[(1 : ℚ), 2], none, none⟩).2.2
      (by decide) (by decide) (by decide)⟩

/-- C3: on a series of length at least `long_window` (windows valid:
`short_window ≥ 1`, `long_window ≥ 2`), `calculate` returns
`buy = !prev && curr` and `sell = prev && !curr`, where `curr` compares
the short and long trailing means over the full series and `prev` the
same over the series without its last sample; a comparison whose window
is not yet filled counts as not-above. -/
theorem calculate_crossover (ts : TradingSignals) (df : DF)
    (hs : 1 ≤ ts.short_window) (hl : 2 ≤ ts.long_window)
    (hlen : ts.long_window ≤ df.close.length) :
    ts.calculate (some df) =
      some ((!(optGt (trailMeanLast ts.short_window df.close.dropLast)
            (trailMeanLast ts.long_window df.close.dropLast))) &&
          optGt (trailMeanLast ts.short_window df.close)
            (trailMeanLast ts.long_window df.close),
        optGt (trailMeanLast ts.short_window df.close.dropLast)
            (trailMeanLast ts.long_window df.close.dropLast) &&
          (!(optGt (trailMeanLast ts.short_window df.close)
            (trailMeanLast ts.long_window df.close)))) := by
  simp only [TradingSignals.calculate]
  rw [calcStep_of_valid ts df hs hl hlen]

/-- Witness for C3, at windows 1/2 on the series `[1, 2]`. -/
theorem calculate_crossover_witness :
    1 ≤ 1 ∧ 2 ≤ 2 ∧ 2 ≤ ([(1 : ℚ), 2]).length ∧
    TradingSignals.calculate ⟨1, 2⟩ (some ⟨[(1 : ℚ), 2], none, none⟩) =
      some ((!(optGt (trailMeanLast 1 ([(1 : ℚ), 2]).dropLast)
            (trailMeanLast 2 ([(1 : ℚ), 2]).dropLast))) &&
          optGt (trailMeanLast 1 [(1 : ℚ), 2]) (trailMeanLast 2 [(1 : ℚ), 2]),
        optGt (trailMeanLast 1 ([(1 : ℚ), 2]).dropLast)
            (trailMeanLast 2 ([(1 : ℚ), 2]).dropLast) &&
          (!(optGt (trailMeanLast 1 [(1 : ℚ), 2]) (trailMeanLast 2 [(1 : ℚ), 2])))) :=
  ⟨by decide, by decide, by decide,
    calculate_crossover ⟨1, 2⟩ ⟨[(1 : ℚ), 2], none, none⟩
      (by decide) (by decide) (by decide)⟩

/-- C4: no call of `calculate` — any window configuration, any input,
including the insufficient-data and raising paths — returns
buy and sell both true. -/
theorem calculate_mutual_exclusion (ts : TradingSignals) (data : Option DF) :
    ts.calculate data ≠ some (true, true) := by
  cases data with
  | none => simp [TradingSignals.calculate]
  | some df =>
    simp only [TradingSignals.calculate, TradingSignals.calcStep]
    split_ifs
    · simp
    · simp
    · simp
    · cases optGt ((rollingMean ts.short_window df.close).getD (df.close.length - 2) none)
        ((rollingMean ts.long_window df.close).getD (df.close.length - 2) none) <;>
      cases optGt ((rollingMean ts.short_window df.close).getD (df.close.length - 1) none)
        ((rollingMean ts.long_window df.close).getD (df.close.length - 1) none) <;>
      simp

/-- Witness for C4 at the default 20/50 configuration on absent data. -/
theorem calculate_mutual_exclusion_witness :
    TradingSignals.calculate ⟨20, 50⟩ none ≠ some (true, true) :=
  calculate_mutual_exclusion ⟨20, 50⟩ none

/-- C5: an absent series, and any series shorter than `long_window`,
yields the defined no-signal pair `(false, false)` rather than an
error. -/
theorem calculate_insufficient_data :
    (∀ ts : TradingSignals, ts.calculate none = some (false, false)) ∧
    (∀ (ts : TradingSignals) (df : DF), df.close.length < ts.long_window →
      ts.calculate (some df) = some (false, false)) := by
  refine ⟨fun ts => rfl, fun ts df h => ?_⟩
  simp only [TradingSignals.calculate, TradingSignals.calcStep]
  rw [if_pos h]

/-- Witness for C5 at the default 20/50 configuration on the empty
series. -/
theorem calculate_insufficient_data_witness :
    ([] : List ℚ).length < 50 ∧
    TradingSignals.calculate ⟨20, 50⟩ (some ⟨([] : List ℚ), none, none⟩) =
      some (false, false) :=
  ⟨by decide, calculate_insufficient_data.2 ⟨20, 50⟩ ⟨([] : List ℚ), none, none⟩ (by decide)⟩

/-- C6: the fetch executes at most `retries` attempts; with the first
`k − 1` attempts failing transiently and the `k`-th returning non-empty
bars (`k ≤ retries`), it returns the tail-sorted data after exactly `k`
attempts with `k − 1` backoff sleeps between them; when all `retries`
attempts fail transiently it returns `None` (DataUnavailable) — a value,
not an exception — after exactly `retries` attempts. -/
theorem get_historical_data_retry_policy :
    (∀ (o : Nat → AttemptOutcome) (limit retries : Nat),
        (get_historical_data o limit retries).2.1 ≤ retries) ∧
    (∀ (o : Nat → AttemptOutcome) (limit retries k : Nat) (bars : List Bar),
        1 ≤ k → k ≤ retries → (∀ j, j + 1 < k → o j = AttemptOutcome.apiErr) →
        o (k - 1) = AttemptOutcome.ok bars → bars ≠ [] →
        get_historical_data o limit retries =
          (some (tailSortIndex limit bars), k, k - 1)) ∧
    (∀ (o : Nat → AttemptOutcome) (limit retries : Nat),
        1 ≤ retries → (∀ j, j < retries → o j = AttemptOutcome.apiErr) →
        get_historical_data o limit retries = (none, retries, retries - 1)) := by
  refine ⟨?_, ?_, ?_⟩
  · intro o limit retries
    have := fetchAux_made_le o limit retries 0 0
    simpa [get_historical_data] using this
  · intro o limit retries k bars hk hkr hpre hok hne
    unfold get_historical_data
    rw [fetchAux_skip o limit (k - 1) retries 0 0 (by omega)
      (fun j hj => by simpa using hpre j (by omega))]
    simp only [Nat.zero_add]
    obtain ⟨f, hf⟩ : ∃ f, retries - (k - 1) = f + 1 := ⟨retries - (k - 1) - 1, by omega⟩
    rw [hf]
    simp only [fetchAux, hok]
    rw [if_neg hne, show k - 1 + 1 = k by omega]
  · intro o limit retries h1 hall
    unfold get_historical_data
    rw [fetchAux_skip o limit (retries - 1) retries 0 0 (by omega)
      (fun j hj => by simpa using hall j (by omega))]
    simp only [Nat.zero_add]
    rw [show retries - (retries - 1) = 1 by omega]
    have hlast : o (retries - 1) = AttemptOutcome.apiErr := hall _ (by omega)
    simp only [fetchAux, hlast, if_true]
    rw [show retries - 1 + 1 = retries by omega]

/-- Witness for C6: two injected transient failures then a success, at
the default 3 retries, returns the data after exactly 3 attempts. -/
theorem get_historical_data_retry_policy_witness :
    (∀ j, j + 1 < 3 →
      (fun i => if i < 2 then AttemptOutcome.apiErr
        else AttemptOutcome.ok [((1 : Nat), (5 : ℚ))]) j = AttemptOutcome.apiErr) ∧
    get_historical_data
        (fun i => if i < 2 then AttemptOutcome.apiErr
          else AttemptOutcome.ok [((1 : Nat), (5 : ℚ))]) 100 3 =
      (some (tailSortIndex 100 [((1 : Nat), (5 : ℚ))]), 3, 3 - 1) := by
  have h1 : ∀ j, j + 1 < 3 →
      (fun i => if i < 2 then AttemptOutcome.apiErr
        else AttemptOutcome.ok [((1 : Nat), (5 : ℚ))]) j = AttemptOutcome.apiErr :=
    fun j hj => by simp only [if_pos (show j < 2 by omega)]
  exact ⟨h1, get_historical_data_retry_policy.2.1
    (fun i => if i < 2 then AttemptOutcome.apiErr
      else AttemptOutcome.ok [((1 : Nat), (5 : ℚ))]) 100 3 3 [((1 : Nat), (5 : ℚ))]
    (by decide) (by decide) h1 rfl (by simp)⟩

/-- C7: the fee estimate of `place_order` is exactly
`qty * current_price * (fee_rate / 100)`, and at quantity 1, price 100,
fee rate 0.25 it evaluates to 0.25. -/
theorem place_order_fee_formula :
    (∀ (fee_rate price qty : ℚ) (symbol side : String),
        place_order fee_rate (some price) symbol qty side =
          some (qty * price * (fee_rate / 100),
            ⟨symbol, qty, side, "market", "gtc"⟩)) ∧
    estimated_fee 1 100 (1 / 4) = 1 / 4 := by
  refine ⟨fun r p q s sd => rfl, ?_⟩
  norm_num [estimated_fee]

/-- C8: an error surfacing to the loop level that is not the
cancellation signal is followed by exactly the error log and a fixed
300-second sleep, after which the loop goes on with its next pass — it
is never terminated by such an error. -/
theorem run_loop_error_recovery (check_interval : Nat) (bs : List IterBehavior) :
    runLoop check_interval (IterBehavior.raises false :: bs) =
      Event.logError :: Event.sleep 300 :: runLoop check_interval bs ∧
    (loopIter check_interval (IterBehavior.raises false)).2 = Control.next := by
  constructor
  · simp [runLoop, loopIter]
  · rfl

/-- C9: on a series of length exactly `long_window` (windows valid and
`short_window ≤ long_window`), the second-to-last long mean is
undefined, so `prev` is false: `calculate` never sells at that length
and buys exactly when the current short trailing mean strictly exceeds
the current long trailing mean. -/
theorem calculate_exact_window_no_sell (ts : TradingSignals) (df : DF)
    (hs : 1 ≤ ts.short_window) (hsl : ts.short_window ≤ ts.long_window)
    (hl : 2 ≤ ts.long_window) (hlen : df.close.length = ts.long_window) :
    ts.calculate (some df) =
      some (decide (lastWindowMean ts.long_window df.close <
        lastWindowMean ts.short_window df.close), false) := by
  simp only [TradingSignals.calculate]
  rw [calcStep_of_valid ts df hs hl (le_of_eq hlen.symm)]
  have hprev : trailMeanLast ts.long_window df.close.dropLast = none := by
    unfold trailMeanLast
    rw [List.length_dropLast, if_neg (by omega)]
  have hshort : trailMeanLast ts.short_window df.close =
      some (lastWindowMean ts.short_window df.close) := by
    unfold trailMeanLast
    rw [if_pos ⟨hs, by omega⟩]
  have hlong : trailMeanLast ts.long_window df.close =
      some (lastWindowMean ts.long_window df.close) := by
    unfold trailMeanLast
    rw [if_pos ⟨by omega, by omega⟩]
  rw [hprev, optGt_none_right, hshort, hlong]
  simp [optGt]

/-- Witness for C9, at windows 1/2 on the series `[1, 2]`. -/
theorem calculate_exact_window_no_sell_witness :
    1 ≤ 1 ∧ 1 ≤ 2 ∧ 2 ≤ 2 ∧ ([(1 : ℚ), 2]).length = 2 ∧
    TradingSignals.calculate ⟨1, 2⟩ (some ⟨[(1 : ℚ), 2], none, none⟩) =
      some (decide (lastWindowMean 2 [(1 : ℚ), 2] < lastWindowMean 1 [(1 : ℚ), 2]),
        false) :=
  ⟨by decide, by decide, by decide, by decide,
    calculate_exact_window_no_sell ⟨1, 2⟩ ⟨[(1 : ℚ), 2], none, none⟩
      (by decide) (by decide) (by decide) (by decide)⟩

/-- C10: an attempt that fails with any exception other than the broker
API error returns `None` at once: the failing attempt is the last one
executed, whatever retry budget remains. -/
theorem get_historical_data_nontransient_abort (o : Nat → AttemptOutcome)
    (limit retries j : Nat) (hj : j < retries)
    (hpre : ∀ i, i < j → o i = AttemptOutcome.apiErr)
    (ho : o j = AttemptOutcome.otherErr) :
    get_historical_data o limit retries = (none, j + 1, j) := by
  unfold get_historical_data
  rw [fetchAux_skip o limit j retries 0 0 hj (fun i hi => by simpa using hpre i hi)]
  simp only [Nat.zero_add]
  obtain ⟨f, hf⟩ : ∃ f, retries - j = f + 1 := ⟨retries - j - 1, by omega⟩
  rw [hf]
  simp only [fetchAux, ho]

/-- Witness for C10: one transient failure then a non-API exception with
3 retries configured stops after the second attempt. -/
theorem get_historical_data_nontransient_abort_witness :
    1 < 3 ∧
    (fun i => if i = 0 then AttemptOutcome.apiErr else AttemptOutcome.otherErr) 1 =
      AttemptOutcome.otherErr ∧
    get_historical_data
        (fun i => if i = 0 then AttemptOutcome.apiErr else AttemptOutcome.otherErr)
        100 3 = (none, 2, 1) :=
  ⟨by decide, rfl,
    get_historical_data_nontransient_abort
      (fun i => if i = 0 then AttemptOutcome.apiErr else AttemptOutcome.otherErr)
      100 3 1 (by decide) (fun i hi => by simp [show i = 0 by omega])
      rfl⟩
